import Mathlib

/-!
Verification of the HomePi security subsystem specification against the
source in pantilt_patrol.py, pantilt_controller.py, camera_manager.py and
security_manager.py.  Each Python module's global mutable state is embedded
as a Lean structure and each function as a pure state transformer; times
and angles (Python floats) are rationals, indices are naturals, the patrol
direction (Python 1 / -1) is an integer.  External effects (servo writes,
database inserts, notifications, log lines) are recorded as explicit action
values so that their presence or absence is provable.
-/

namespace PantiltPatrol

/-- Embeds one element of the patrol_positions list
(a dict {id, pan, tilt, dwell_time, created_at}; the timestamp string plays
no role in any claim and is omitted). -/
structure PatrolPosition where
  id : ℕ
  pan : ℚ
  tilt : ℚ
  dwell_time : ℚ
  deriving DecidableEq

/-- Embeds the module-level mutable state of pantilt_patrol.py:
patrol_positions, patrol_active, interrupted, current_position_index,
patrol_direction, patrol_speed, and whether an interrupt_resume_timer is
currently scheduled (threading.Timer pending). -/
structure PatrolState where
  positions : List PatrolPosition
  active : Bool
  interrupted : Bool
  currentIndex : ℕ
  direction : ℤ
  speed : ℤ
  pendingResume : Bool
  deriving DecidableEq

/-- Embeds delete_position (pantilt_patrol.py lines 93-100): the list is
filtered by id; no other module variable is touched (in particular the
running current_position_index is left unchanged). -/
def delete_position (position_id : ℕ) (st : PatrolState) : PatrolState :=
  { st with positions := st.positions.filter (fun p => p.id != position_id) }

/-- Embeds the read patrol_positions[current_position_index] performed by
patrol_loop (line 153).  A none result models the IndexError raised when
the index is out of range. -/
def patrol_loop_read (st : PatrolState) : Option PatrolPosition :=
  st.positions[st.currentIndex]?

/-- Embeds the index-advance arithmetic of patrol_loop (lines 169-186):
next = index + direction; past the end flip to backward and step to
length - 2 (floored at 0); past the beginning flip to forward and step to
1 (or 0 when the list has a single element). -/
def advance_index (n : ℕ) (i : ℕ) (dir : ℤ) : ℕ × ℤ :=
  let next : ℤ := (i : ℤ) + dir
  if next ≥ (n : ℤ) then
    let nx : ℤ := (n : ℤ) - 2
    ((if nx < 0 then 0 else nx).toNat, -1)
  else if next < 0 then
    ((if (1 : ℤ) ≥ (n : ℤ) then 0 else 1), 1)
  else (next.toNat, dir)

/-- Indices visited by patrol_loop over k iterations starting from a given
(index, direction) pair: each iteration visits the current index and then
advances it. -/
def visit_indices : ℕ → ℕ → ℕ × ℤ → List ℕ
  | 0, _, _ => []
  | k + 1, n, (i, d) => i :: visit_indices k n (advance_index n i d)

/-- Positions visited over k iterations of patrol_loop from the state
start_patrol establishes (index 0, forward). -/
def visit_sequence (ps : List PatrolPosition) (k : ℕ) : List (Option PatrolPosition) :=
  (visit_indices k ps.length (0, 1)).map (fun i => ps[i]?)

/-- Embeds start_patrol (pantilt_patrol.py lines 191-226).  Guards in
source order: pan-tilt not enabled, empty position list, already active.
Otherwise speed is clamped to [1, 10], the index is reset to 0 and the
direction to forward, and the loop is started.  Line 218 of the source
assigns the name interrupted without declaring it global, so the
module-level interrupted flag is not modified by this function: the
assignment binds a function-local name that is never read. -/
def start_patrol (pantilt_enabled : Bool) (speed : ℤ) (st : PatrolState) :
    Bool × PatrolState :=
  if pantilt_enabled then
    if st.positions.isEmpty then (false, st)
    else if st.active then (true, st)
    else
      (true, { st with
        speed := max 1 (min 10 speed),
        currentIndex := 0,
        direction := 1,
        active := true })
  else (false, st)

/-- Embeds stop_patrol (lines 229-244): a no-op returning false when not
active; otherwise clears active and interrupted and cancels any pending
resume timer. -/
def stop_patrol (st : PatrolState) : Bool × PatrolState :=
  if st.active then
    (true, { st with active := false, interrupted := false, pendingResume := false })
  else (false, st)

/-- Embeds interrupt_patrol (lines 247-269): a no-op returning false when
not active; otherwise sets interrupted and cancels-and-reschedules the
single resume timer (so exactly one resume stays pending). -/
def interrupt_patrol (st : PatrolState) : Bool × PatrolState :=
  if st.active then
    (true, { st with interrupted := true, pendingResume := true })
  else (false, st)

/-- Embeds resume_patrol (lines 272-278), the timer callback: clears
interrupted only when the patrol is still active and interrupted. -/
def resume_patrol (st : PatrolState) : PatrolState :=
  if st.active && st.interrupted then { st with interrupted := false } else st

/-- Models the resume delay elapsing: if a timer is pending it fires
(running resume_patrol) and is no longer pending; a cancelled timer never
fires, so the state is unchanged. -/
def resume_timer_elapse (st : PatrolState) : PatrolState :=
  if st.pendingResume then { resume_patrol st with pendingResume := false } else st

/-- Patrol modes as named in the specification. -/
inductive PatrolMode
  | Idle
  | Patrolling
  | Interrupted
  deriving DecidableEq

/-- Mode of a patrol state: Patrolling and Interrupted both have the loop
active and are distinguished by the interrupted flag. -/
def mode (st : PatrolState) : PatrolMode :=
  if st.active then
    if st.interrupted then PatrolMode.Interrupted else PatrolMode.Patrolling
  else PatrolMode.Idle

/-- Sample patrol positions (ids 1, 2, 3), as created by three
add_position calls. -/
def pos1 : PatrolPosition := ⟨1, -45, 0, 5⟩

/-- Second sample patrol position. -/
def pos2 : PatrolPosition := ⟨2, 0, -20, 3⟩

/-- Third sample patrol position. -/
def pos3 : PatrolPosition := ⟨3, 45, 0, 5⟩

/-- Patrol state with three positions, loop active and currently at the
last index. -/
def three_pos_state : PatrolState := ⟨[pos1, pos2, pos3], true, false, 2, 1, 5, false⟩

/-- Patrol state with one position, inactive, with the interrupted flag
still set. -/
def interrupted_idle_state : PatrolState := ⟨[pos1], false, true, 1, -1, 5, false⟩

/-- Patrol state with one position, actively patrolling. -/
def patrolling_state : PatrolState := ⟨[pos1], true, false, 0, 1, 5, false⟩

end PantiltPatrol

namespace PantiltController

/-- Embeds the pantilt entries of config.json read by
pantilt_controller.load_config: pan_limits, tilt_limits, home_position and
tracking_speed (each limit pair is (low, high)). -/
structure PantiltConfig where
  pan_limits : ℚ × ℚ
  tilt_limits : ℚ × ℚ
  home_position : ℚ × ℚ
  tracking_speed : ℚ
  deriving DecidableEq

/-- Embeds the module-level mutable state of pantilt_controller.py:
pantilt_enabled, current_pan, current_tilt and tracking_active, together
with the loaded configuration. -/
structure CtrlState where
  config : PantiltConfig
  pantilt_enabled : Bool
  current_pan : ℚ
  current_tilt : ℚ
  tracking_active : Bool
  deriving DecidableEq

/-- Embeds move_to (pantilt_controller.py lines 84-131): a no-op returning
false when the HAT is disabled; otherwise the target is clamped to the
configured limits with max(low, min(high, x)) and the recorded current
position becomes the clamped target.  The speed parameter only paces the
intermediate servo writes between the old and the new recorded position
and does not change the final state. -/
def move_to (pan tilt speed : ℚ) (st : CtrlState) : Bool × CtrlState :=
  if st.pantilt_enabled then
    let p := max st.config.pan_limits.1 (min st.config.pan_limits.2 pan)
    let t := max st.config.tilt_limits.1 (min st.config.tilt_limits.2 tilt)
    (true, { st with current_pan := p, current_tilt := t })
  else (false, st)

/-- Embeds home (lines 134-138): move_to at the configured home position
with speed 3. -/
def home (st : CtrlState) : Bool × CtrlState :=
  move_to st.config.home_position.1 st.config.home_position.2 3 st

/-- Embeds track_object (pantilt_controller.py lines 202-254): disabled is
a no-op returning false; otherwise tracking_active is set for the duration
of the call (the finally block clears it before returning), the offset of
the bounding-box center from the frame center is normalized, an offset
inside the 0.1 deadzone produces no move, and otherwise the offset scaled
by tracking_speed (tilt axis inverted) is added to the current position
and passed to move_to at speed 10. -/
def track_object (bbox : ℚ × ℚ × ℚ × ℚ) (frame_width frame_height : ℚ)
    (st : CtrlState) : Bool × CtrlState :=
  if st.pantilt_enabled then
    let st1 := { st with tracking_active := true }
    let obj_center_x := (bbox.1 + bbox.2.2.1) / 2
    let obj_center_y := (bbox.2.1 + bbox.2.2.2) / 2
    let frame_center_x := frame_width / 2
    let frame_center_y := frame_height / 2
    let offset_x := (obj_center_x - frame_center_x) / frame_center_x
    let offset_y := (obj_center_y - frame_center_y) / frame_center_y
    if |offset_x| < (1 : ℚ) / 10 ∧ |offset_y| < (1 : ℚ) / 10 then
      (true, { st1 with tracking_active := false })
    else
      let pan_adjustment := offset_x * st.config.tracking_speed
      let tilt_adjustment := -offset_y * st.config.tracking_speed
      let r := move_to (st.current_pan + pan_adjustment)
        (st.current_tilt + tilt_adjustment) 10 st1
      (r.1, { r.2 with tracking_active := false })
  else (false, st)

/-- Recorded position lies within the configured limits. -/
def in_limits (st : CtrlState) : Prop :=
  st.config.pan_limits.1 ≤ st.current_pan ∧
  st.current_pan ≤ st.config.pan_limits.2 ∧
  st.config.tilt_limits.1 ≤ st.current_tilt ∧
  st.current_tilt ≤ st.config.tilt_limits.2

instance (st : CtrlState) : Decidable (in_limits st) := by
  unfold in_limits; infer_instance

/-- Controller state with the default configuration of load_config
(pan limits [-90, 90], tilt limits [-45, 45], home [0, 0], tracking
speed 5), enabled and at the home position. -/
def ctrl0 : CtrlState := ⟨⟨(-90, 90), (-45, 45), (0, 0), 5⟩, true, 0, 0, false⟩

end PantiltController

/-- Combined state of the pan-tilt controller module and the patrol state
machine module. -/
structure SysState where
  ctrl : PantiltController.CtrlState
  patrol : PantiltPatrol.PatrolState
  deriving DecidableEq

/-- Effect of invoking pantilt_controller.track_object on the combined
state.  Neither pantilt_controller.track_object (lines 202-254) nor
security_manager.track_object (lines 336-379) contains any reference to
the pantilt_patrol module — pantilt_patrol is imported nowhere in the
repository outside its own self-test — so the patrol component is
untouched by a track invocation. -/
def track_object_sys (bbox : ℚ × ℚ × ℚ × ℚ) (fw fh : ℚ) (s : SysState) :
    Bool × SysState :=
  let r := PantiltController.track_object bbox fw fh s.ctrl
  (r.1, ⟨r.2, s.patrol⟩)

namespace CameraManager

/-- Embeds the refresh cooldown constant (camera_manager.py line 43). -/
def REFRESH_COOLDOWN_SECONDS : ℚ := 10

/-- Embeds the refresh bookkeeping of camera_manager.py: last_refresh_time
(module initial value 0, which is falsy in the truth tests of
refresh_camera, stands for "never refreshed"). -/
structure RefreshState where
  last_refresh_time : ℚ
  deriving DecidableEq

/-- Result of a refresh_camera call: the returned boolean, whether the
camera was actually stopped and reinitialized during the call, and the new
refresh state. -/
structure RefreshResult where
  returned : Bool
  reinitialized : Bool
  state : RefreshState
  deriving DecidableEq

/-- Embeds refresh_camera (camera_manager.py lines 250-288).  now is the
clock at entry and done the clock read again after reinitialization (the
source calls time.time() twice; now ≤ done).  The emergency flag is a
truthy last_refresh_time with more than 5 seconds elapsed since the last
refresh — it does not consult frame timestamps.  The call is skipped
(returning false, changing nothing) exactly when it is not forced, not an
emergency, a refresh has happened before, and the cooldown has not yet
passed; otherwise the camera is stopped and reinitialized, and on a
successful reinitialization last_refresh_time becomes the completion
clock (on failure it is left unchanged and false is returned). -/
def refresh_camera (force : Bool) (now done : ℚ) (init_success : Bool)
    (st : RefreshState) : RefreshResult :=
  if force = false ∧ ¬ (st.last_refresh_time ≠ 0 ∧ now - st.last_refresh_time > 5) ∧
      st.last_refresh_time ≠ 0 ∧ now - st.last_refresh_time < REFRESH_COOLDOWN_SECONDS then
    ⟨false, false, st⟩
  else if init_success then
    ⟨true, true, { st with last_refresh_time := done }⟩
  else
    ⟨false, true, st⟩

/-- Externally visible actions of one capture-loop iteration. -/
inductive CapAction
  | log_slow
  | log_multiple_slow
  | log_error
  | log_multiple_failures
  | publish_frame
  | sleep
  | request_refresh
  | do_refresh
  deriving DecidableEq

/-- Outcome of one camera.capture_array() call as observed by the capture
loop: fast (duration at most 100 ms), slow (duration above 100 ms) or
raising an exception. -/
inductive CapOutcome
  | fast
  | slow
  | failed
  deriving DecidableEq

/-- Embeds one iteration of the while body of _continuous_capture
(camera_manager.py lines 97-142) as a function of the capture outcome and
the consecutive_failures counter, returning the new counter and the
actions the iteration performs.  A fast capture resets the counter and
publishes the frame; a slow capture increments the counter and still
publishes below the threshold of 5, while at the threshold the counter is
reset and the iteration only logs and sleeps — per the source comment the
refresh is left to the health check: no refresh is performed and no
refresh request is recorded in any module variable.  A failed capture
increments the counter (resetting it at the threshold) and only logs and
sleeps. -/
def capture_step (o : CapOutcome) (cnt : ℕ) : ℕ × List CapAction :=
  match o with
  | .fast => (0, [.publish_frame, .sleep])
  | .slow =>
    if cnt + 1 ≥ 5 then (0, [.log_slow, .log_multiple_slow, .sleep])
    else (cnt + 1, [.log_slow, .publish_frame, .sleep])
  | .failed =>
    if cnt + 1 ≥ 5 then (0, [.log_error, .log_multiple_failures, .sleep])
    else (cnt + 1, [.log_error, .sleep])

/-- Runs capture_step over a sequence of capture outcomes starting from a
given counter, concatenating the performed actions. -/
def capture_run : List CapOutcome → ℕ → ℕ × List CapAction
  | [], cnt => (cnt, [])
  | o :: os, cnt =>
    let r := capture_step o cnt
    let r2 := capture_run os r.1
    (r2.1, r.2 ++ r2.2)

end CameraManager

namespace SecurityManager

/-- Tests whether the needle character list occurs at the start of the
haystack. -/
def chars_at_start : List Char → List Char → Bool
  | [], _ => true
  | _ :: _, [] => false
  | n :: ns, h :: hs => n == h && chars_at_start ns hs

/-- Tests whether the needle character list occurs anywhere in the
haystack. -/
def chars_within : List Char → List Char → Bool
  | n, [] => chars_at_start n []
  | n, h :: hs => chars_at_start n (h :: hs) || chars_within n hs

/-- String containment, the Python expression needle in haystack used by
handle_detection to classify car-like labels. -/
def str_contains (hay needle : String) : Bool :=
  chars_within needle.toList hay.toList

/-- Embeds one detection dict {class_name, confidence, bbox} returned by
the inference collaborator. -/
structure Detection where
  class_name : String
  confidence : ℚ
  bbox : ℚ × ℚ × ℚ × ℚ
  deriving DecidableEq

/-- A Python exception escaping handle_detection. -/
inductive PyError
  | attribute_error (module attr : String)
  deriving DecidableEq

/-- External effects of handle_detection: snapshot saved, detection row
inserted, Telegram message sent (send_photo and send_notification are not
distinguished), garage actuator fired, detection row updated with the
action taken, tracking invoked. -/
inductive SecAction
  | save_snapshot (cls : String)
  | save_detection (cls : String) (car_id : Option String)
  | send_notification (cls : String)
  | open_garage
  | update_action_taken
  | track (bbox : ℚ × ℚ × ℚ × ℚ)
  deriving DecidableEq

/-- Module-level function names defined in camera_manager.py, in source
order.  Attribute access on the module resolves against these names; any
other name raises AttributeError in Python. -/
def camera_manager_defs : List String :=
  ["load_config", "_continuous_capture", "init_camera", "get_frame",
   "get_latest_frame", "get_frame_for_streaming", "get_frame_timestamp",
   "get_frame_age", "refresh_camera", "ensure_camera_fresh",
   "get_single_frame_encoded", "start_recording", "stop_recording",
   "take_snapshot", "is_recording", "is_enabled", "stop_camera",
   "get_camera_status"]

/-- Attribute lookup on the camera_manager module. -/
def camera_manager_has (attr : String) : Bool :=
  camera_manager_defs.contains attr

/-- Security configuration entries consumed by handle_detection
(config.json via load_config, with the source defaults). -/
structure SecConfig where
  classes_of_interest : List String
  telegram_enabled : Bool
  notify_person : Bool
  notify_my_car : Bool
  notify_unknown_car : Bool
  auto_open : Bool
  tracking_enabled : Bool
  cooldown : ℚ
  deriving DecidableEq

/-- Mutable security_manager state read and written by handle_detection:
tracking_target and last_my_car_time. -/
structure SecState where
  tracking_target : Option (ℚ × ℚ × ℚ × ℚ)
  last_my_car_time : ℚ
  deriving DecidableEq

/-- Result of the automation block: whether the garage action executed,
the resulting last_my_car_time, and the external actions performed. -/
structure FireResult where
  fired : Bool
  last_my_car_time : ℚ
  actions : List SecAction
  deriving DecidableEq

/-- Embeds the automation block of handle_detection (security_manager.py
lines 299-328), the body guarded by car_id equal to my_car: if the
cooldown has elapsed (strictly more than cooldown seconds since
last_my_car_time) and auto_open is configured and the Flipper is enabled,
the garage actuator is fired; on actuator success last_my_car_time is
updated to the current clock, the detection row is updated and a
notification is sent.  When the cooldown has not elapsed the block only
logs: no actuator call, no state change. -/
def fire_garage (cooldown : ℚ) (auto_open flipper_enabled open_success : Bool)
    (now last : ℚ) : FireResult :=
  if now - last > cooldown then
    if auto_open then
      if flipper_enabled then
        if open_success then
          ⟨true, now, [.open_garage, .update_action_taken, .send_notification "garage"]⟩
        else ⟨false, last, [.open_garage]⟩
      else ⟨false, last, []⟩
    else ⟨false, last, []⟩
  else ⟨false, last, []⟩

/-- Embeds the per-detection body of handle_detection's loop
(security_manager.py lines 243-328).  The snapshot step calls get_frame
and, when a frame is available, camera_manager.save_frame — a name absent
from camera_manager_defs, so that call raises AttributeError.  Then the
car test ("car" or "truck" occurring in the class name), the database
insert, the notification policy and the my_car automation follow the
source; car recognition is not implemented, so car_id is unknown_car for
every car-like detection and none otherwise. -/
def handle_one_detection (cfg : SecConfig)
    (frame_available flipper_enabled open_success : Bool)
    (now last : ℚ) (d : Detection) : Except PyError (ℚ × List SecAction) := do
  let snapshot_actions ←
    if frame_available then
      if camera_manager_has "save_frame" then
        pure [SecAction.save_snapshot d.class_name]
      else
        throw (PyError.attribute_error "camera_manager" "save_frame")
    else
      pure ([] : List SecAction)
  let is_car := str_contains d.class_name "car" || str_contains d.class_name "truck"
  let car_id : Option String := if is_car then some "unknown_car" else none
  let should_notify :=
    (d.class_name == "person" && cfg.notify_person) ||
    (is_car && (car_id == some "my_car") && cfg.notify_my_car) ||
    (is_car && !(car_id == some "my_car") && cfg.notify_unknown_car)
  let notify_actions :=
    if cfg.telegram_enabled && should_notify then
      [SecAction.send_notification d.class_name]
    else []
  let auto :=
    if car_id == some "my_car" then
      fire_garage cfg.cooldown cfg.auto_open flipper_enabled open_success now last
    else ⟨false, last, []⟩
  pure (auto.last_my_car_time,
    snapshot_actions ++ [SecAction.save_detection d.class_name car_id] ++
      notify_actions ++ auto.actions)

/-- Runs handle_one_detection over the filtered detections in order,
threading last_my_car_time; the first raised exception aborts the
remainder, as in the Python for loop. -/
def process_detections (cfg : SecConfig)
    (frame_available flipper_enabled open_success : Bool) (now : ℚ) :
    ℚ → List Detection → Except PyError (ℚ × List SecAction)
  | last, [] => pure (last, [])
  | last, d :: ds => do
    let r ← handle_one_detection cfg frame_available flipper_enabled
      open_success now last d
    let r2 ← process_detections cfg frame_available flipper_enabled
      open_success now r.1 ds
    pure (r2.1, r.2 ++ r2.2)

/-- Embeds handle_detection (security_manager.py lines 221-333): empty or
fully filtered-out detection lists clear the tracking target and do
nothing else; otherwise every accepted detection is processed in order and
finally, when tracking is enabled, the tracking target becomes the first
accepted detection's bounding box and track_object is invoked on it. -/
def handle_detection (cfg : SecConfig)
    (frame_available flipper_enabled open_success : Bool) (now : ℚ)
    (st : SecState) (detections : List Detection) :
    Except PyError (SecState × List SecAction) := do
  if detections.isEmpty then
    pure ({ st with tracking_target := none }, [])
  else
    let filtered := detections.filter
      (fun d => cfg.classes_of_interest.contains d.class_name)
    if filtered.isEmpty then
      pure ({ st with tracking_target := none }, [])
    else do
      let r ← process_detections cfg frame_available flipper_enabled
        open_success now st.last_my_car_time filtered
      match filtered.head? with
      | some d =>
        if cfg.tracking_enabled then
          pure (⟨some d.bbox, r.1⟩, r.2 ++ [SecAction.track d.bbox])
        else
          pure (⟨st.tracking_target, r.1⟩, r.2)
      | none => pure (⟨st.tracking_target, r.1⟩, r.2)

/-- Default security configuration: classes of interest car and person,
Telegram enabled with the source defaults (notify_person false,
notify_my_car true, notify_unknown_car true), auto_open false, tracking
enabled, automation cooldown 300 s. -/
def default_cfg : SecConfig :=
  ⟨["car", "person"], true, false, true, true, false, true, 300⟩

/-- Sample person detection. -/
def person_det : Detection := ⟨"person", 9 / 10, (100, 100, 300, 400)⟩

end SecurityManager

/-- Claim C3: the claim says a deletion performed while the patrol loop is
active clamps the running index into the shortened list so the next read
stays in bounds.  The code has no such clamp: deleting the last of three
positions while the index rests on it leaves the index at 2 over a
two-element list, and the loop's next read patrol_positions[2] is out of
range (an IndexError in the source). -/
theorem delete_position_leaves_index_out_of_range :
    (PantiltPatrol.delete_position 3 PantiltPatrol.three_pos_state).positions.length = 2 ∧
    (PantiltPatrol.delete_position 3 PantiltPatrol.three_pos_state).currentIndex = 2 ∧
    PantiltPatrol.patrol_loop_read (PantiltPatrol.delete_position 3 PantiltPatrol.three_pos_state) = none :=
  ⟨rfl, rfl, rfl⟩

/-- Claim C4: the claim says start_patrol resets index to 0, direction to
forward and the interrupted flag to false.  Index and direction are reset,
but the interrupted flag keeps its old value: the assignment on line 218
of pantilt_patrol.py is a function-local binding because interrupted is
missing from the global declaration on line 198. -/
theorem start_patrol_does_not_clear_interrupted :
    (PantiltPatrol.start_patrol true 5 PantiltPatrol.interrupted_idle_state).1 = true ∧
    (PantiltPatrol.start_patrol true 5 PantiltPatrol.interrupted_idle_state).2.currentIndex = 0 ∧
    (PantiltPatrol.start_patrol true 5 PantiltPatrol.interrupted_idle_state).2.direction = 1 ∧
    (PantiltPatrol.start_patrol true 5 PantiltPatrol.interrupted_idle_state).2.interrupted = true :=
  ⟨rfl, rfl, rfl, rfl⟩

/-- Claim C8: starting patrol over [A, B, C] with zero dwell, the
positions visited over 7 loop iterations are exactly A, B, C, B, A, B, C:
a ping-pong traversal that flips direction at each edge instead of
resetting to index 0. -/
theorem patrol_ping_pong (A B C : PantiltPatrol.PatrolPosition) :
    PantiltPatrol.visit_sequence [A, B, C] 7 =
      [some A, some B, some C, some B, some A, some B, some C] := rfl

/-- Claim C9: interrupt() during Patrolling moves to Interrupted at once
and schedules an auto-resume; when the delay elapses with no further call
the timer fires and the state is Patrolling again; stop() while
Interrupted cancels the pending resume, so after the delay elapses the
state is still Idle. -/
theorem interrupt_resume_stop_scenario (st : PantiltPatrol.PatrolState)
    (hact : st.active = true) (hint : st.interrupted = false) :
    PantiltPatrol.mode (PantiltPatrol.interrupt_patrol st).2 = PantiltPatrol.PatrolMode.Interrupted ∧
    (PantiltPatrol.interrupt_patrol st).2.pendingResume = true ∧
    PantiltPatrol.mode (PantiltPatrol.resume_timer_elapse (PantiltPatrol.interrupt_patrol st).2) =
      PantiltPatrol.PatrolMode.Patrolling ∧
    (PantiltPatrol.stop_patrol (PantiltPatrol.interrupt_patrol st).2).2.pendingResume = false ∧
    PantiltPatrol.mode (PantiltPatrol.stop_patrol (PantiltPatrol.interrupt_patrol st).2).2 =
      PantiltPatrol.PatrolMode.Idle ∧
    PantiltPatrol.mode (PantiltPatrol.resume_timer_elapse
      (PantiltPatrol.stop_patrol (PantiltPatrol.interrupt_patrol st).2).2) =
      PantiltPatrol.PatrolMode.Idle := by
  simp [PantiltPatrol.interrupt_patrol, PantiltPatrol.stop_patrol,
    PantiltPatrol.resume_patrol, PantiltPatrol.resume_timer_elapse,
    PantiltPatrol.mode, hact, hint]

/-- Claim C9 witness: the scenario run from a concrete one-position
patrolling state. -/
theorem interrupt_resume_stop_scenario_witness :
    PantiltPatrol.mode (PantiltPatrol.interrupt_patrol PantiltPatrol.patrolling_state).2 =
      PantiltPatrol.PatrolMode.Interrupted ∧
    (PantiltPatrol.interrupt_patrol PantiltPatrol.patrolling_state).2.pendingResume = true ∧
    PantiltPatrol.mode (PantiltPatrol.resume_timer_elapse
      (PantiltPatrol.interrupt_patrol PantiltPatrol.patrolling_state).2) =
      PantiltPatrol.PatrolMode.Patrolling ∧
    (PantiltPatrol.stop_patrol (PantiltPatrol.interrupt_patrol PantiltPatrol.patrolling_state).2).2.pendingResume = false ∧
    PantiltPatrol.mode (PantiltPatrol.stop_patrol
      (PantiltPatrol.interrupt_patrol PantiltPatrol.patrolling_state).2).2 =
      PantiltPatrol.PatrolMode.Idle ∧
    PantiltPatrol.mode (PantiltPatrol.resume_timer_elapse
      (PantiltPatrol.stop_patrol (PantiltPatrol.interrupt_patrol PantiltPatrol.patrolling_state).2).2) =
      PantiltPatrol.PatrolMode.Idle :=
  interrupt_resume_stop_scenario PantiltPatrol.patrolling_state rfl rfl

/-- Clamping with max(low, min(high, x)) lands in [low, high] whenever
low ≤ high. -/
theorem clamp_mem {lo hi x : ℚ} (h : lo ≤ hi) :
    lo ≤ max lo (min hi x) ∧ max lo (min hi x) ≤ hi :=
  ⟨le_max_left _ _, max_le h (min_le_left _ _)⟩

/-- A move_to call on an enabled controller with sane limits leaves the
recorded position within the limits. -/
theorem move_to_in_limits (pan tilt speed : ℚ) (st : PantiltController.CtrlState)
    (hen : st.pantilt_enabled = true)
    (hp : st.config.pan_limits.1 ≤ st.config.pan_limits.2)
    (ht : st.config.tilt_limits.1 ≤ st.config.tilt_limits.2) :
    PantiltController.in_limits (PantiltController.move_to pan tilt speed st).2 := by
  unfold PantiltController.move_to
  rw [if_pos hen]
  exact ⟨(clamp_mem hp).1, (clamp_mem hp).2, (clamp_mem ht).1, (clamp_mem ht).2⟩

/-- A track_object call on an enabled controller with sane limits
preserves the in-limits invariant: the deadzone branch leaves the position
unchanged and the move branch clamps. -/
theorem track_object_in_limits (bbox : ℚ × ℚ × ℚ × ℚ) (fw fh : ℚ)
    (st : PantiltController.CtrlState)
    (hen : st.pantilt_enabled = true)
    (hp : st.config.pan_limits.1 ≤ st.config.pan_limits.2)
    (ht : st.config.tilt_limits.1 ≤ st.config.tilt_limits.2)
    (hin : PantiltController.in_limits st) :
    PantiltController.in_limits (PantiltController.track_object bbox fw fh st).2 := by
  unfold PantiltController.track_object
  rw [if_pos hen]
  dsimp only
  split
  · exact hin
  · exact move_to_in_limits _ _ _ _ hen hp ht

/-- Claim C6 counterexample: invoking track on a concrete bounding box
while the patrol state machine is Patrolling leaves it Patrolling — the
interrupted flag stays false — because no track implementation references
the pantilt_patrol module. -/
theorem track_does_not_interrupt_patrol :
    (track_object_sys (0, 0, 100, 100) 1920 1080
      ⟨PantiltController.ctrl0, PantiltPatrol.patrolling_state⟩).2.patrol.interrupted = false ∧
    PantiltPatrol.mode (track_object_sys (0, 0, 100, 100) 1920 1080
      ⟨PantiltController.ctrl0, PantiltPatrol.patrolling_state⟩).2.patrol =
      PantiltPatrol.PatrolMode.Patrolling :=
  ⟨rfl, rfl⟩

/-- Claim C6 amended: a track invocation leaves the patrol state machine's
state entirely unchanged (it never signals it); the Patrolling to
Interrupted transition with a scheduled auto-resume happens only when
interrupt_patrol is invoked directly. -/
theorem track_patrol_unchanged_interrupt_direct (bbox : ℚ × ℚ × ℚ × ℚ)
    (fw fh : ℚ) (s : SysState) (hact : s.patrol.active = true) :
    (track_object_sys bbox fw fh s).2.patrol = s.patrol ∧
    PantiltPatrol.mode (PantiltPatrol.interrupt_patrol s.patrol).2 =
      PantiltPatrol.PatrolMode.Interrupted ∧
    (PantiltPatrol.interrupt_patrol s.patrol).2.pendingResume = true := by
  refine ⟨rfl, ?_, ?_⟩ <;>
    simp [PantiltPatrol.interrupt_patrol, PantiltPatrol.mode, hact]

/-- Claim C6 amended witness: the amended statement at a concrete bounding
box and a concrete patrolling system state. -/
theorem track_patrol_unchanged_interrupt_direct_witness :
    (track_object_sys (0, 0, 100, 100) 1920 1080
      ⟨PantiltController.ctrl0, PantiltPatrol.patrolling_state⟩).2.patrol =
      PantiltPatrol.patrolling_state ∧
    PantiltPatrol.mode (PantiltPatrol.interrupt_patrol PantiltPatrol.patrolling_state).2 =
      PantiltPatrol.PatrolMode.Interrupted ∧
    (PantiltPatrol.interrupt_patrol PantiltPatrol.patrolling_state).2.pendingResume = true :=
  track_patrol_unchanged_interrupt_direct (0, 0, 100, 100) 1920 1080
    ⟨PantiltController.ctrl0, PantiltPatrol.patrolling_state⟩ rfl

/-- Claim C10: while enabled and with each configured limit pair
satisfying low ≤ high, move_to records exactly the clamped target, the
recorded position after move_to and home lies within the limits, and
track_object preserves the in-limits invariant (deadzone: position
unchanged; otherwise the adjusted target is clamped by move_to). -/
theorem movement_preserves_limits (st : PantiltController.CtrlState)
    (pan tilt speed : ℚ) (bbox : ℚ × ℚ × ℚ × ℚ) (fw fh : ℚ)
    (hen : st.pantilt_enabled = true)
    (hp : st.config.pan_limits.1 ≤ st.config.pan_limits.2)
    (ht : st.config.tilt_limits.1 ≤ st.config.tilt_limits.2) :
    (PantiltController.move_to pan tilt speed st).2.current_pan =
      max st.config.pan_limits.1 (min st.config.pan_limits.2 pan) ∧
    (PantiltController.move_to pan tilt speed st).2.current_tilt =
      max st.config.tilt_limits.1 (min st.config.tilt_limits.2 tilt) ∧
    PantiltController.in_limits (PantiltController.move_to pan tilt speed st).2 ∧
    PantiltController.in_limits (PantiltController.home st).2 ∧
    (PantiltController.in_limits st →
      PantiltController.in_limits (PantiltController.track_object bbox fw fh st).2) := by
  refine ⟨?_, ?_, move_to_in_limits _ _ _ _ hen hp ht,
    move_to_in_limits _ _ _ _ hen hp ht,
    fun hin => track_object_in_limits _ _ _ _ hen hp ht hin⟩
  · unfold PantiltController.move_to
    rw [if_pos hen]
  · unfold PantiltController.move_to
    rw [if_pos hen]

/-- Claim C10 witness: the invariant at the default configuration, with an
out-of-range request (120, -60) clamped to (90, -45). -/
theorem movement_preserves_limits_witness :
    (PantiltController.move_to 120 (-60) 5 PantiltController.ctrl0).2.current_pan =
      max PantiltController.ctrl0.config.pan_limits.1
        (min PantiltController.ctrl0.config.pan_limits.2 120) ∧
    (PantiltController.move_to 120 (-60) 5 PantiltController.ctrl0).2.current_tilt =
      max PantiltController.ctrl0.config.tilt_limits.1
        (min PantiltController.ctrl0.config.tilt_limits.2 (-60)) ∧
    PantiltController.in_limits (PantiltController.move_to 120 (-60) 5 PantiltController.ctrl0).2 ∧
    PantiltController.in_limits (PantiltController.home PantiltController.ctrl0).2 ∧
    (PantiltController.in_limits PantiltController.ctrl0 →
      PantiltController.in_limits
        (PantiltController.track_object (0, 0, 100, 100) 1920 1080 PantiltController.ctrl0).2) :=
  movement_preserves_limits PantiltController.ctrl0 120 (-60) 5 (0, 0, 100, 100)
    1920 1080 rfl (by decide) (by decide)

/-- Claim C2 counterexample: with the last refresh completed at clock
1000, a second unforced refresh call at clock 1007 — 7 seconds later, well
inside the 10 second cooldown window — reinitializes the camera again,
because the source's emergency override fires whenever more than 5 seconds
have passed since the last refresh, regardless of frame freshness.  So two
unforced calls within one cooldown window perform two reinitializations. -/
theorem refresh_twice_within_cooldown :
    ((1007 : ℚ) - 1000 < 10) ∧
    (CameraManager.refresh_camera false 1000 1000 true ⟨0⟩).reinitialized = true ∧
    (CameraManager.refresh_camera false 1000 1000 true ⟨0⟩).state.last_refresh_time = 1000 ∧
    (CameraManager.refresh_camera false 1007 1007 true ⟨1000⟩).reinitialized = true := by
  refine ⟨by norm_num, ?_, ?_, ?_⟩ <;>
    norm_num [CameraManager.refresh_camera, CameraManager.REFRESH_COOLDOWN_SECONDS]

/-- Claim C2 amended: an unforced refresh call is a no-op returning false
only while at most 5 seconds have passed since the last refresh — the
source's emergency condition is elapsed time since the last refresh above
5 seconds, not frame absence — and a call after the 10 second cooldown has
expired reinitializes again. -/
theorem refresh_cooldown_five_second_window (last now1 now2 : ℚ)
    (h0 : last ≠ 0) (h1 : now1 - last ≤ 5) (h3 : 10 < now2 - last) :
    CameraManager.refresh_camera false now1 now1 true ⟨last⟩ =
      ⟨false, false, ⟨last⟩⟩ ∧
    (CameraManager.refresh_camera false now2 now2 true ⟨last⟩).reinitialized = true := by
  unfold CameraManager.refresh_camera CameraManager.REFRESH_COOLDOWN_SECONDS
  constructor
  · split_ifs with hc hi
    · rfl
    · exact absurd ⟨rfl, fun hx => absurd hx.2 (not_lt.mpr h1), h0, by linarith⟩ hc
    · exact absurd ⟨rfl, fun hx => absurd hx.2 (not_lt.mpr h1), h0, by linarith⟩ hc
  · split_ifs with hc hi
    · exact absurd hc.2.2.2 (by linarith)
    · rfl
    · exact absurd rfl hi

/-- Claim C2 amended witness: the amended statement with the last refresh
at clock 1000, a skipped call at 1003 and a reinitializing call at 1011. -/
theorem refresh_cooldown_five_second_window_witness :
    CameraManager.refresh_camera false 1003 1003 true ⟨1000⟩ =
      ⟨false, false, ⟨1000⟩⟩ ∧
    (CameraManager.refresh_camera false 1011 1011 true ⟨1000⟩).reinitialized = true :=
  refresh_cooldown_five_second_window 1000 1003 1011 (by norm_num) (by norm_num)
    (by norm_num)

/-- Claim C5 counterexample: after 5 consecutive slow captures starting
from a zero counter, the counter is back at 0 but the loop has emitted no
refresh request and performed no refresh — the threshold branch only logs,
resets the counter and sleeps. -/
theorem capture_threshold_emits_no_refresh_request :
    (CameraManager.capture_run (List.replicate 5 CameraManager.CapOutcome.slow) 0).1 = 0 ∧
    CameraManager.CapAction.request_refresh ∉
      (CameraManager.capture_run (List.replicate 5 CameraManager.CapOutcome.slow) 0).2 ∧
    CameraManager.CapAction.do_refresh ∉
      (CameraManager.capture_run (List.replicate 5 CameraManager.CapOutcome.slow) 0).2 := by
  decide

/-- Claim C5 amended: when a slow or failed capture brings the consecutive
failure counter to the threshold of 5, the loop resets the counter to zero
and only logs and sleeps — it performs no refresh and signals no refresh
request to anything; stale frames are left to the separate health check to
notice. -/
theorem capture_threshold_resets_counter_only (o : CameraManager.CapOutcome)
    (cnt : ℕ) (ho : o ≠ CameraManager.CapOutcome.fast) (h5 : 5 ≤ cnt + 1) :
    (CameraManager.capture_step o cnt).1 = 0 ∧
    CameraManager.CapAction.request_refresh ∉ (CameraManager.capture_step o cnt).2 ∧
    CameraManager.CapAction.do_refresh ∉ (CameraManager.capture_step o cnt).2 := by
  cases o with
  | fast => exact absurd rfl ho
  | slow => simp [CameraManager.capture_step, h5]
  | failed => simp [CameraManager.capture_step, h5]

/-- Claim C5 amended witness: a fifth consecutive slow capture (counter at
4) resets the counter and emits no refresh action. -/
theorem capture_threshold_resets_counter_only_witness :
    (CameraManager.capture_step CameraManager.CapOutcome.slow 4).1 = 0 ∧
    CameraManager.CapAction.request_refresh ∉
      (CameraManager.capture_step CameraManager.CapOutcome.slow 4).2 ∧
    CameraManager.CapAction.do_refresh ∉
      (CameraManager.capture_step CameraManager.CapOutcome.slow 4).2 :=
  capture_threshold_resets_counter_only CameraManager.CapOutcome.slow 4
    (by decide) (by decide)

/-- Claim C1: the claim says an orchestration cycle with an accepted
detection persists a record, evaluates notification policy, invokes
tracking and (with a frame available) saves a snapshot, completing without
raising.  On the code, with a frame available the per-detection snapshot
step calls camera_manager.save_frame, a function that does not exist in
camera_manager.py, so the cycle raises AttributeError before persisting,
notifying or tracking. -/
theorem handle_detection_raises_attribute_error :
    SecurityManager.handle_detection SecurityManager.default_cfg true true true
      1000 ⟨none, 0⟩ [SecurityManager.person_det] =
      Except.error (SecurityManager.PyError.attribute_error "camera_manager" "save_frame") :=
  rfl

/-- Claim C7: with a 300 second cooldown and no prior firing (last-fired
timestamp 0), firing the garage automation at clock T succeeds and records
T; a second fire 100 seconds later is rejected with the timestamp and all
external actions untouched; a third fire 301 seconds after the first
succeeds.  The hypothesis 300 < T states that the wall clock is past the
cooldown length, which holds for any real clock reading; the claim's
t = 0, 100, 301 are offsets from T. -/
theorem garage_cooldown_gate (T : ℚ) (hT : 300 < T) :
    (SecurityManager.fire_garage 300 true true true T 0).fired = true ∧
    (SecurityManager.fire_garage 300 true true true T 0).last_my_car_time = T ∧
    (SecurityManager.fire_garage 300 true true true (T + 100) T).fired = false ∧
    (SecurityManager.fire_garage 300 true true true (T + 100) T).last_my_car_time = T ∧
    (SecurityManager.fire_garage 300 true true true (T + 100) T).actions = [] ∧
    (SecurityManager.fire_garage 300 true true true (T + 301) T).fired = true ∧
    (SecurityManager.fire_garage 300 true true true (T + 301) T).last_my_car_time = T + 301 := by
  have h2 : ¬(300 : ℚ) < 100 := by norm_num
  have h3 : (300 : ℚ) < 301 := by norm_num
  simp [SecurityManager.fire_garage, hT, h2, h3]

/-- Claim C7 witness: the cooldown gate scenario from base clock 1000. -/
theorem garage_cooldown_gate_witness :
    (SecurityManager.fire_garage 300 true true true 1000 0).fired = true ∧
    (SecurityManager.fire_garage 300 true true true 1000 0).last_my_car_time = 1000 ∧
    (SecurityManager.fire_garage 300 true true true (1000 + 100) 1000).fired = false ∧
    (SecurityManager.fire_garage 300 true true true (1000 + 100) 1000).last_my_car_time = 1000 ∧
    (SecurityManager.fire_garage 300 true true true (1000 + 100) 1000).actions = [] ∧
    (SecurityManager.fire_garage 300 true true true (1000 + 301) 1000).fired = true ∧
    (SecurityManager.fire_garage 300 true true true (1000 + 301) 1000).last_my_car_time = 1000 + 301 :=
  garage_cooldown_gate 1000 (by norm_num)
